import Mathlib

set_option linter.unusedVariables false

/-
Verification of the unified bit-packed identifier core of the repository
(crates/bevy_ecs/src/identifier.rs, identifier/mod.rs, identifier/masks.rs).

The development shallowly embeds the three source files over `Nat`, with
explicit bounds (`< 2 ^ 32`, `< 2 ^ 64`) standing for the `u32`/`u64`
domains of the Rust code.  Three namespaces mirror the three files:

* `Masks`  — identifier/masks.rs (`IdentifierMask`),
* `ModId`  — identifier/mod.rs   (the `{ lo, hi }` struct, one kind flag),
* `ActId`  — identifier.rs       (the transparent `u64` struct with the
             kind flag at bit 63 and the activation flag at bit 62).
-/

namespace Masks

/-- Modelled from the spec: masks.rs refers to `super::kinds::IdKind`, but the
`kinds` module itself is not among the sources.  The spec describes the kind
discriminator as a closed two-variant tag (`Entity` versus the
`Pair`/`Placeholder` variant) with an explicit integer encoding pinned so that
the encoding, shifted left by 24 bits in `pack_kind_into_high`, lands on the
top bit (bit 31) of the high segment; the unit tests of masks.rs fix
`Placeholder`'s encoding to `0b1000_0000`. -/
inductive IdKind where
  | Entity
  | Placeholder
deriving DecidableEq

/-- Modelled from the spec: the integer discriminant of `kinds::IdKind`
(`repr(u8)`), with `Entity = 0` and `Placeholder = 0b1000_0000`. -/
def IdKind.code : IdKind → Nat
  | .Entity => 0
  | .Placeholder => 0x80

/-- masks.rs `LOW_MASK`: mask for the lower 32-bit segment of a `u64`. -/
def LOW_MASK : Nat := 0x00000000FFFFFFFF

/-- masks.rs `HIGH_MASK`: mask for the value portion of a 32-bit high
segment (31 bits; the most significant bit is the flag bit). -/
def HIGH_MASK : Nat := 0x7FFFFFFF

/-- `IdentifierMask::get_low`: `(value & LOW_MASK) as u32`. -/
def get_low (value : Nat) : Nat :=
  value &&& LOW_MASK

/-- `IdentifierMask::get_high`: `((value & !LOW_MASK) >> u32::BITS) as u32`;
`!LOW_MASK` in `u64` is the constant `0xFFFFFFFF00000000`. -/
def get_high (value : Nat) : Nat :=
  (value &&& 0xFFFFFFFF00000000) >>> 32

/-- `IdentifierMask::pack_into_u64`: `((high as u64) << u32::BITS) | (low as u64)`. -/
def pack_into_u64 (low high : Nat) : Nat :=
  (high <<< 32) ||| low

/-- `IdentifierMask::pack_kind_into_high`: `value | ((kind as u32) << 24)`. -/
def pack_kind_into_high (value : Nat) (kind : IdKind) : Nat :=
  value ||| (kind.code <<< 24)

/-- `IdentifierMask::extract_value_from_high`: `value & HIGH_MASK`. -/
def extract_value_from_high (value : Nat) : Nat :=
  value &&& HIGH_MASK

/-- `IdentifierMask::extract_kind_from_high`: the kind mask is `!HIGH_MASK`
in `u32`, i.e. `0x80000000`; the result is `Placeholder` when the masked
bit equals the mask, else `Entity`. -/
def extract_kind_from_high (value : Nat) : IdKind :=
  if value &&& 0x80000000 = 0x80000000 then IdKind.Placeholder else IdKind.Entity

end Masks

namespace ModId

/-- identifier/mod.rs `IdKind` (`repr(u32)`): `Entity = 0`,
`Pair = 1 << (u32::BITS - 1)`. -/
inductive IdKind where
  | Entity
  | Pair
deriving DecidableEq

/-- The `repr(u32)` discriminant of the mod.rs `IdKind` (`kind as u32`). -/
def IdKind.code : IdKind → Nat
  | .Entity => 0
  | .Pair => 1 <<< 31

/-- The correspondence between the mod.rs kind tag and the kinds-module tag
used by `Masks.extract_kind_from_high`: both encode their second variant as
the top bit of the high segment. -/
def IdKind.toMaskKind : IdKind → Masks.IdKind
  | .Entity => Masks.IdKind.Entity
  | .Pair => Masks.IdKind.Placeholder

/-- identifier/mod.rs `Identifier`: a struct with fields `lo: u32, hi: u32`,
in this declaration order (which the derived `PartialOrd`/`Ord` follow). -/
structure Identifier where
  lo : Nat
  hi : Nat
deriving DecidableEq

/-- `Identifier::new` (mod.rs): masks `high` through
`IdentifierMask::extract_value_from_high` and ors in the kind bits. -/
def Identifier.new (low high : Nat) (kind : IdKind) : Identifier :=
  { lo := low, hi := Masks.extract_value_from_high high ||| kind.code }

/-- `Identifier::low` (mod.rs): direct field read. -/
def Identifier.low (self : Identifier) : Nat :=
  self.lo

/-- `Identifier::high` (mod.rs): direct field read, no masking. -/
def Identifier.high (self : Identifier) : Nat :=
  self.hi

/-- `Identifier::to_bits` (mod.rs): `(self.hi as u64) << u32::BITS | (self.lo as u64)`. -/
def Identifier.to_bits (self : Identifier) : Nat :=
  (self.hi <<< 32) ||| self.lo

/-- `Identifier::from_bits` (mod.rs): splits through `get_low`/`get_high`. -/
def Identifier.from_bits (value : Nat) : Identifier :=
  { lo := Masks.get_low value, hi := Masks.get_high value }

/-- The derived `PartialOrd`/`Ord` of the mod.rs `Identifier`: Rust derives
compare fields lexicographically in declaration order, hence `lo` first and
`hi` second. -/
def Identifier.lt (a b : Identifier) : Bool :=
  decide (a.lo < b.lo) || (decide (a.lo = b.lo) && decide (a.hi < b.hi))

end ModId

namespace ActId

/-- identifier.rs `LOW_MASK`. -/
def LOW_MASK : Nat := 0xFFFFFFFF

/-- identifier.rs `HIGH_MASK`: keeps bits 32–61 only; the two most
significant bits are the type flags. -/
def HIGH_MASK : Nat := 0x3FFFFFFF00000000

/-- identifier.rs `FlagDiscriminators::EntityPair = 1 << (u64::BITS - 1)`. -/
def FlagEntityPair : Nat := 1 <<< 63

/-- identifier.rs `FlagDiscriminators::Deactivated = 1 << (u64::BITS - 2)`. -/
def FlagDeactivated : Nat := 1 <<< 62

/-- identifier.rs `IdKind` (`repr(u64)`): `Entity = 0`,
`Pair = 1 << (u64::BITS - 1)`. -/
inductive IdKind where
  | Entity
  | Pair
deriving DecidableEq

/-- The `repr(u64)` discriminant of the identifier.rs `IdKind` (`kind as u64`). -/
def IdKind.code : IdKind → Nat
  | .Entity => 0
  | .Pair => 1 <<< 63

/-- identifier.rs `Identifier`: `#[repr(transparent)] struct Identifier(u64)`. -/
structure Identifier where
  bits : Nat
deriving DecidableEq

/-- `Identifier::new` (identifier.rs):
`masked_high = ((high as u64) << u32::BITS) & HIGH_MASK`, then
`masked_high | (low as u64) | (kind as u64)`. -/
def Identifier.new (low high : Nat) (kind : IdKind) : Identifier :=
  ⟨(((high <<< 32) &&& HIGH_MASK) ||| low) ||| kind.code⟩

/-- `Identifier::low` (identifier.rs): `(self.0 & LOW_MASK) as u32`. -/
def Identifier.low (self : Identifier) : Nat :=
  self.bits &&& LOW_MASK

/-- `Identifier::high` (identifier.rs): `((self.0 & HIGH_MASK) >> u32::BITS) as u32`. -/
def Identifier.high (self : Identifier) : Nat :=
  (self.bits &&& HIGH_MASK) >>> 32

/-- `Identifier::to_bits` (identifier.rs): the raw word. -/
def Identifier.to_bits (self : Identifier) : Nat :=
  self.bits

/-- `Identifier::from_bits` (identifier.rs): wraps the raw word, unvalidated. -/
def Identifier.from_bits (value : Nat) : Identifier :=
  ⟨value⟩

/-- `Identifier::kind` (identifier.rs): tests the `EntityPair` flag bit;
`Pair` when the masked bit equals the mask, else `Entity`. -/
def Identifier.kind (self : Identifier) : IdKind :=
  if self.bits &&& FlagEntityPair = FlagEntityPair then IdKind.Pair else IdKind.Entity

/-- `Identifier::is_active` (identifier.rs): the `Deactivated` bit is clear. -/
def Identifier.is_active (self : Identifier) : Bool :=
  decide (self.bits &&& FlagDeactivated = 0)

/-- identifier.rs `NEGATE_DEACTIVATE_MASK = !(1 << (u64::BITS - 2))` in `u64`. -/
def NEGATE_DEACTIVATE_MASK : Nat := 0xBFFFFFFFFFFFFFFF

/-- `Identifier::activate` (identifier.rs): clears the `Deactivated` bit. -/
def Identifier.activate (self : Identifier) : Identifier :=
  ⟨self.bits &&& NEGATE_DEACTIVATE_MASK⟩

/-- `Identifier::deactivate` (identifier.rs): sets the `Deactivated` bit. -/
def Identifier.deactivate (self : Identifier) : Identifier :=
  ⟨self.bits ||| FlagDeactivated⟩

/-- The derived `PartialOrd`/`Ord` of the identifier.rs `Identifier`: the
struct has a single `u64` field, so the derived order is the raw word order. -/
def Identifier.lt (a b : Identifier) : Bool :=
  decide (a.bits < b.bits)

end ActId

/-
Generic bit-arithmetic helper lemmas: they relate the masked/shifted
forms used by the source functions to plain division and modulus, so
that the claims reduce to linear arithmetic.
-/

theorem testBit_div_pow (x n i : Nat) : (x / 2 ^ n).testBit i = x.testBit (n + i) := by
  simp [Nat.testBit_to_div_mod, Nat.div_div_eq_div_mul, ← Nat.pow_add]

theorem and_mask_shift (x k n : Nat) :
    x &&& ((2 ^ k - 1) <<< n) = x / 2 ^ n % 2 ^ k * 2 ^ n := by
  apply Nat.eq_of_testBit_eq
  intro i
  rw [← Nat.shiftLeft_eq]
  simp only [Nat.testBit_and, Nat.testBit_shiftLeft, Nat.testBit_two_pow_sub_one,
    Nat.testBit_mod_two_pow, testBit_div_pow]
  rcases Nat.lt_or_ge i n with h | h
  · have h2 : ¬ n ≤ i := Nat.not_le.mpr h
    simp [h2]
  · have h2 : n + (i - n) = i := by omega
    simp [h, h2, Bool.and_comm, Bool.and_left_comm]

theorem mul_pow_or_eq_add (a b n : Nat) (hb : b < 2 ^ n) :
    (a * 2 ^ n) ||| b = a * 2 ^ n + b := by
  rw [Nat.mul_comm a (2 ^ n)]
  exact (Nat.mul_add_lt_is_or hb a).symm

theorem shiftLeft_or_eq_add (a b n : Nat) (hb : b < 2 ^ n) :
    (a <<< n) ||| b = a * 2 ^ n + b := by
  rw [Nat.shiftLeft_eq]
  exact mul_pow_or_eq_add a b n hb

theorem two_pow_or_eq_add (b n : Nat) (hb : b < 2 ^ n) : b ||| 2 ^ n = 2 ^ n + b := by
  rw [Nat.or_comm]
  have h := (Nat.mul_add_lt_is_or hb 1).symm
  simpa using h

theorem or_two_pow_and_two_pow (x n : Nat) : (x ||| 2 ^ n) &&& 2 ^ n = 2 ^ n := by
  apply Nat.eq_of_testBit_eq
  intro i
  simp only [Nat.testBit_and, Nat.testBit_or]
  cases h : (2 ^ n).testBit i <;> simp [h]

theorem and_two_pow_eq_zero_iff (x n : Nat) : x &&& 2 ^ n = 0 ↔ x.testBit n = false := by
  constructor
  · intro h
    have h2 := congrArg (fun y => y.testBit n) h
    simpa [Nat.testBit_two_pow_self] using h2
  · intro h
    apply Nat.eq_of_testBit_eq
    intro i
    simp only [Nat.testBit_and, Nat.zero_testBit, Nat.testBit_two_pow]
    by_cases hni : n = i
    · subst hni
      simp [h]
    · simp [hni]

theorem testBit_eq_false_of_ge_64 (x j : Nat) (hx : x < 2 ^ 64) (hj : 64 ≤ j) :
    x.testBit j = false :=
  Nat.testBit_lt_two_pow (Nat.lt_of_lt_of_le hx (Nat.pow_le_pow_right (by omega) hj))

theorem testBit_neg_deactivate_mask (i : Nat) :
    (0xBFFFFFFFFFFFFFFF : Nat).testBit i = (decide (i < 62) || decide (i = 63)) := by
  have h : (0xBFFFFFFFFFFFFFFF : Nat) = 2 ^ 63 + (2 ^ 62 - 1) := by norm_num
  rw [h]
  rcases Nat.lt_trichotomy i 63 with h1 | h1 | h1
  · rw [Nat.testBit_two_pow_add_gt h1, Nat.testBit_two_pow_sub_one]
    have h2 : i ≠ 63 := by omega
    simp [h2]
  · subst h1
    rw [Nat.testBit_two_pow_add_eq, Nat.testBit_two_pow_sub_one]
    decide
  · have h2 : 2 ^ 63 + (2 ^ 62 - 1) < 2 ^ i := by
      calc 2 ^ 63 + (2 ^ 62 - 1) < 2 ^ 64 := by norm_num
        _ ≤ 2 ^ i := Nat.pow_le_pow_right (by omega) (by omega)
    rw [Nat.testBit_lt_two_pow h2]
    have h3 : ¬ i < 62 := by omega
    have h4 : i ≠ 63 := by omega
    simp [h3, h4]

/-
Arithmetic characterisations of the source functions.
-/

theorem get_low_eq (x : Nat) : Masks.get_low x = x % 2 ^ 32 := by
  have h : Masks.LOW_MASK = 2 ^ 32 - 1 := by norm_num [Masks.LOW_MASK]
  rw [Masks.get_low, h, Nat.and_pow_two_sub_one_eq_mod]

theorem get_high_eq (x : Nat) : Masks.get_high x = x / 2 ^ 32 % 2 ^ 32 := by
  have h : (0xFFFFFFFF00000000 : Nat) = (2 ^ 32 - 1) <<< 32 := by
    norm_num [Nat.shiftLeft_eq]
  rw [Masks.get_high, h, and_mask_shift, Nat.shiftRight_eq_div_pow]
  omega

theorem pack_into_u64_eq (l h : Nat) (hl : l < 2 ^ 32) :
    Masks.pack_into_u64 l h = h * 2 ^ 32 + l := by
  rw [Masks.pack_into_u64]
  exact shiftLeft_or_eq_add h l 32 hl

theorem extract_value_from_high_eq (x : Nat) :
    Masks.extract_value_from_high x = x % 2 ^ 31 := by
  have h : Masks.HIGH_MASK = 2 ^ 31 - 1 := by norm_num [Masks.HIGH_MASK]
  rw [Masks.extract_value_from_high, h, Nat.and_pow_two_sub_one_eq_mod]

theorem extract_kind_from_high_eq (x : Nat) :
    Masks.extract_kind_from_high x =
      if x / 2 ^ 31 % 2 = 1 then Masks.IdKind.Placeholder else Masks.IdKind.Entity := by
  have h : (0x80000000 : Nat) = (2 ^ 1 - 1) <<< 31 := by norm_num [Nat.shiftLeft_eq]
  rw [Masks.extract_kind_from_high, h, and_mask_shift]
  have h2 : (x / 2 ^ 31 % 2 ^ 1 * 2 ^ 31 = (2 ^ 1 - 1) <<< 31) ↔ (x / 2 ^ 31 % 2 = 1) := by
    rw [Nat.shiftLeft_eq]
    omega
  simp only [h2]

theorem mod_new_hi (l h : Nat) (k : ModId.IdKind) :
    (ModId.Identifier.new l h k).hi = k.code + h % 2 ^ 31 := by
  simp only [ModId.Identifier.new, extract_value_from_high_eq]
  cases k
  · simp [ModId.IdKind.code]
  · have hc : ModId.IdKind.code ModId.IdKind.Pair = 2 ^ 31 := by
      norm_num [ModId.IdKind.code, Nat.shiftLeft_eq]
    rw [hc, two_pow_or_eq_add _ 31 (by omega)]

theorem mod_to_bits_eq (a : ModId.Identifier) (hl : a.lo < 2 ^ 32) :
    a.to_bits = a.hi * 2 ^ 32 + a.lo := by
  simp only [ModId.Identifier.to_bits, Nat.shiftLeft_eq]
  exact mul_pow_or_eq_add _ _ _ hl

theorem act_low_eq (x : Nat) : ActId.Identifier.low ⟨x⟩ = x % 2 ^ 32 := by
  have h : ActId.LOW_MASK = 2 ^ 32 - 1 := by norm_num [ActId.LOW_MASK]
  simp only [ActId.Identifier.low, h, Nat.and_pow_two_sub_one_eq_mod]

theorem act_high_eq (x : Nat) : ActId.Identifier.high ⟨x⟩ = x / 2 ^ 32 % 2 ^ 30 := by
  have h : ActId.HIGH_MASK = (2 ^ 30 - 1) <<< 32 := by
    norm_num [ActId.HIGH_MASK, Nat.shiftLeft_eq]
  simp only [ActId.Identifier.high, h, and_mask_shift, Nat.shiftRight_eq_div_pow]
  omega

theorem act_is_active_eq (x : Nat) :
    ActId.Identifier.is_active ⟨x⟩ = decide (x / 2 ^ 62 % 2 = 0) := by
  have h : ActId.FlagDeactivated = (2 ^ 1 - 1) <<< 62 := by
    norm_num [ActId.FlagDeactivated, Nat.shiftLeft_eq]
  simp only [ActId.Identifier.is_active, h, and_mask_shift]
  simp only [decide_eq_decide]
  omega

theorem act_kind_eq (x : Nat) :
    ActId.Identifier.kind ⟨x⟩ =
      if x / 2 ^ 63 % 2 = 1 then ActId.IdKind.Pair else ActId.IdKind.Entity := by
  have h : ActId.FlagEntityPair = (2 ^ 1 - 1) <<< 63 := by
    norm_num [ActId.FlagEntityPair, Nat.shiftLeft_eq]
  simp only [ActId.Identifier.kind, h, and_mask_shift]
  have h2 : (x / 2 ^ 63 % 2 ^ 1 * 2 ^ 63 = (2 ^ 1 - 1) <<< 63) ↔ (x / 2 ^ 63 % 2 = 1) := by
    rw [Nat.shiftLeft_eq]
    omega
  simp only [h2]

theorem act_new_bits (l h : Nat) (hl : l < 2 ^ 32) (k : ActId.IdKind) :
    (ActId.Identifier.new l h k).bits = k.code + h % 2 ^ 30 * 2 ^ 32 + l := by
  have hm : ActId.HIGH_MASK = (2 ^ 30 - 1) <<< 32 := by
    norm_num [ActId.HIGH_MASK, Nat.shiftLeft_eq]
  have hd : (h <<< 32) / 2 ^ 32 % 2 ^ 30 = h % 2 ^ 30 := by
    rw [Nat.shiftLeft_eq]
    omega
  have h1 : (ActId.Identifier.new l h k).bits
      = (h % 2 ^ 30 * 2 ^ 32 ||| l) ||| k.code := by
    simp only [ActId.Identifier.new, hm, and_mask_shift, hd]
  rw [h1, mul_pow_or_eq_add _ _ _ hl]
  cases k
  · simp [ActId.IdKind.code]
  · have hc : ActId.IdKind.code ActId.IdKind.Pair = 2 ^ 63 := by
      norm_num [ActId.IdKind.code, Nat.shiftLeft_eq]
    rw [hc, two_pow_or_eq_add _ 63 (by omega)]
    omega

/-
Claim theorems.
-/

/-- C1: for every 64-bit value `x`, `to_bits (from_bits x) = x` — the
conversion is total and lossless over the whole `u64` space, with no bit
pattern rejected or altered, in both the single-flag variant (mod.rs) and
the activation-flag variant (identifier.rs). -/
theorem claim_round_trip (x : Nat) (hx : x < 2 ^ 64) :
    (ModId.Identifier.from_bits x).to_bits = x ∧
    (ActId.Identifier.from_bits x).to_bits = x := by
  constructor
  · have h1 : (ModId.Identifier.from_bits x).lo = x % 2 ^ 32 := get_low_eq x
    have h2 : (ModId.Identifier.from_bits x).hi = x / 2 ^ 32 % 2 ^ 32 := get_high_eq x
    rw [mod_to_bits_eq _ (by rw [h1]; omega), h1, h2]
    omega
  · rfl

/-- Witness for C1 at the concrete input `0x7FFFFFFF0000000C`. -/
theorem claim_round_trip_witness :
    (0x7FFFFFFF0000000C : Nat) < 2 ^ 64 ∧
    ((ModId.Identifier.from_bits 0x7FFFFFFF0000000C).to_bits = 0x7FFFFFFF0000000C ∧
     (ActId.Identifier.from_bits 0x7FFFFFFF0000000C).to_bits = 0x7FFFFFFF0000000C) :=
  ⟨by decide, claim_round_trip 0x7FFFFFFF0000000C (by decide)⟩

/-- C2 counterexample: in the mod.rs variant the derived order compares the
`lo` field first, so `from_bits 1` is not below `from_bits (2 ^ 32)` even
though its packed word is smaller; the claim that `<` agrees with the raw
64-bit order in both variants is false. -/
theorem claim_order_counterexample :
    ModId.Identifier.lt (ModId.Identifier.from_bits 1)
        (ModId.Identifier.from_bits 0x100000000) = false ∧
    (ModId.Identifier.from_bits 1).to_bits <
      (ModId.Identifier.from_bits 0x100000000).to_bits := by
  decide

/-- C2 amended: equality of identifiers coincides with equality of their
packed words in both variants, and in the identifier.rs variant the derived
`<` also coincides with the raw `u64` order; in the mod.rs variant the
derived order is lexicographic on `(lo, hi)` and does not follow the packed
word. -/
theorem claim_order_amended (a b : ModId.Identifier) (c d : ActId.Identifier)
    (ha1 : a.lo < 2 ^ 32) (hb1 : b.lo < 2 ^ 32) :
    ((a = b) ↔ a.to_bits = b.to_bits) ∧
    ((c = d) ↔ c.to_bits = d.to_bits) ∧
    ActId.Identifier.lt c d = decide (c.to_bits < d.to_bits) := by
  refine ⟨?_, ?_, rfl⟩
  · constructor
    · intro h
      rw [h]
    · intro h
      rw [mod_to_bits_eq a ha1, mod_to_bits_eq b hb1] at h
      have h1 : a.lo = b.lo := by omega
      have h2 : a.hi = b.hi := by omega
      have ea : a = ⟨a.lo, a.hi⟩ := rfl
      have eb : b = ⟨b.lo, b.hi⟩ := rfl
      rw [ea, eb, h1, h2]
  · constructor
    · intro h
      rw [h]
    · intro h
      have h2 : c.bits = d.bits := h
      have ec : c = ⟨c.bits⟩ := rfl
      have ed : d = ⟨d.bits⟩ := rfl
      rw [ec, ed, h2]

/-- Witness for C2 (amended) at concrete identifiers. -/
theorem claim_order_amended_witness :
    (ModId.Identifier.mk 3 7).lo < 2 ^ 32 ∧ (ModId.Identifier.mk 5 7).lo < 2 ^ 32 ∧
    ((((ModId.Identifier.mk 3 7) = (ModId.Identifier.mk 5 7)) ↔
        (ModId.Identifier.mk 3 7).to_bits = (ModId.Identifier.mk 5 7).to_bits) ∧
     (((ActId.Identifier.mk 9) = (ActId.Identifier.mk 11)) ↔
        (ActId.Identifier.mk 9).to_bits = (ActId.Identifier.mk 11).to_bits) ∧
     ActId.Identifier.lt (ActId.Identifier.mk 9) (ActId.Identifier.mk 11)
        = decide ((ActId.Identifier.mk 9).to_bits < (ActId.Identifier.mk 11).to_bits)) :=
  ⟨by decide, by decide, claim_order_amended _ _ _ _ (by decide) (by decide)⟩

/-- C3 counterexample: `pack_kind_into_high` only ors the kind bit in; packing
`Entity` into a high word whose kind bit is already set leaves the bit set,
and extraction yields `Placeholder`, not `Entity`. -/
theorem claim_kind_pack_counterexample :
    Masks.extract_kind_from_high
        (Masks.pack_kind_into_high 0x80000000 Masks.IdKind.Entity) ≠
      Masks.IdKind.Entity := by
  decide

/-- C3 amended: extracting after packing returns the packed kind for every
32-bit high word whose kind bit (bit 31) is clear, and for the `Placeholder`
kind regardless of the prior content of that bit position. -/
theorem claim_kind_pack_amended (h : Nat) (hh : h < 2 ^ 32) (k : Masks.IdKind)
    (hbit : h &&& 0x80000000 = 0 ∨ k = Masks.IdKind.Placeholder) :
    Masks.extract_kind_from_high (Masks.pack_kind_into_high h k) = k := by
  cases k
  · rcases hbit with hbit | hbit
    · have hp : Masks.pack_kind_into_high h Masks.IdKind.Entity = h := by
        simp [Masks.pack_kind_into_high, Masks.IdKind.code]
      rw [hp]
      simp [Masks.extract_kind_from_high, hbit]
    · exact Masks.IdKind.noConfusion hbit
  · have hp : Masks.pack_kind_into_high h Masks.IdKind.Placeholder = h ||| 2 ^ 31 := by
      have hc : Masks.IdKind.code Masks.IdKind.Placeholder <<< 24 = 2 ^ 31 := by
        norm_num [Masks.IdKind.code, Nat.shiftLeft_eq]
      simp [Masks.pack_kind_into_high, hc]
    rw [hp, Masks.extract_kind_from_high]
    have hc2 : (h ||| 2 ^ 31) &&& 0x80000000 = 0x80000000 := by
      have h31 : (0x80000000 : Nat) = 2 ^ 31 := by norm_num
      rw [h31]
      exact or_two_pow_and_two_pow h 31
    rw [if_pos hc2]

/-- Witness for C3 (amended) at `h = 0x00FFFF00`, `k = Entity`. -/
theorem claim_kind_pack_amended_witness :
    (0x00FFFF00 : Nat) < 2 ^ 32 ∧
    ((0x00FFFF00 : Nat) &&& 0x80000000 = 0 ∨ Masks.IdKind.Entity = Masks.IdKind.Placeholder) ∧
    Masks.extract_kind_from_high
        (Masks.pack_kind_into_high 0x00FFFF00 Masks.IdKind.Entity) = Masks.IdKind.Entity :=
  ⟨by decide, by decide,
    claim_kind_pack_amended 0x00FFFF00 (by decide) Masks.IdKind.Entity (by decide)⟩

/-- C4 counterexample: at `x = 0x7FFFFFFF0000000C` the most significant 32
bits of `x` are `0x7FFFFFFF`, but the identifier.rs `high()` accessor masks
the two flag bits away and returns `0x3FFFFFFF`, so `high()` there is not
flag-preserving. -/
theorem claim_high_counterexample :
    (ActId.Identifier.from_bits 0x7FFFFFFF0000000C).high = 0x3FFFFFFF ∧
    (ActId.Identifier.from_bits 0x7FFFFFFF0000000C).high ≠ 0x7FFFFFFF := by
  decide

/-- C4 amended: in the mod.rs variant `(from_bits x).high` returns the most
significant 32 bits of `x` unmodified, flag bits embedded, with no masking;
in the identifier.rs (activation) variant `high()` itself masks the two flag
bits and returns only the 30-bit value portion, bits 32–61 of `x`. -/
theorem claim_high_amended (x : Nat) (hx : x < 2 ^ 64) :
    (ModId.Identifier.from_bits x).high = x / 2 ^ 32 ∧
    (ActId.Identifier.from_bits x).high = x / 2 ^ 32 % 2 ^ 30 := by
  constructor
  · have h2 : (ModId.Identifier.from_bits x).high = x / 2 ^ 32 % 2 ^ 32 := get_high_eq x
    rw [h2]
    omega
  · exact act_high_eq x

/-- Witness for C4 (amended) at `x = 0x7FFFFFFF0000000C`. -/
theorem claim_high_amended_witness :
    (0x7FFFFFFF0000000C : Nat) < 2 ^ 64 ∧
    ((ModId.Identifier.from_bits 0x7FFFFFFF0000000C).high = 0x7FFFFFFF0000000C / 2 ^ 32 ∧
     (ActId.Identifier.from_bits 0x7FFFFFFF0000000C).high
        = 0x7FFFFFFF0000000C / 2 ^ 32 % 2 ^ 30) :=
  ⟨by decide, claim_high_amended 0x7FFFFFFF0000000C (by decide)⟩

/-- C5 counterexample: an identifier obtained `from_bits` with the
deactivation bit already set is not restored by `activate ∘ deactivate`; the
pair of calls clears the bit instead, so the round trip fails for such
identifiers. -/
theorem claim_activation_counterexample :
    (ActId.Identifier.from_bits 0x4000000000000000).deactivate.activate ≠
      ActId.Identifier.from_bits 0x4000000000000000 := by
  decide

/-- C5 amended: `activate (deactivate id) = id` holds for every 64-bit
identifier that is currently active (in particular for every freshly
constructed one); `is_active (deactivate id) = false` for every identifier,
and `is_active (new low high kind) = true` for all constructor inputs. -/
theorem claim_activation_amended (id : ActId.Identifier) (hid : id.bits < 2 ^ 64)
    (l h : Nat) (hl : l < 2 ^ 32) (k : ActId.IdKind) :
    (id.is_active = true → id.deactivate.activate = id) ∧
    id.deactivate.is_active = false ∧
    (ActId.Identifier.new l h k).is_active = true := by
  have hD : ActId.FlagDeactivated = 2 ^ 62 := by
    norm_num [ActId.FlagDeactivated, Nat.shiftLeft_eq]
  refine ⟨?_, ?_, ?_⟩
  · intro hact
    have hbit : id.bits.testBit 62 = false := by
      have h1 : id.bits &&& ActId.FlagDeactivated = 0 := of_decide_eq_true hact
      rw [hD] at h1
      exact (and_two_pow_eq_zero_iff _ 62).mp h1
    have hb : id.deactivate.activate.bits = id.bits := by
      show (id.bits ||| ActId.FlagDeactivated) &&& ActId.NEGATE_DEACTIVATE_MASK = id.bits
      apply Nat.eq_of_testBit_eq
      intro i
      rw [hD]
      simp only [Nat.testBit_and, Nat.testBit_or, ActId.NEGATE_DEACTIVATE_MASK,
        testBit_neg_deactivate_mask, Nat.testBit_two_pow]
      rcases Nat.lt_trichotomy i 62 with h1 | h1 | h1
      · have e1 : decide (i < 62) = true := by simp [h1]
        have e2 : (62 : Nat) ≠ i := by omega
        simp [e1, e2]
      · subst h1
        simp [hbit]
      · rcases Nat.lt_or_ge i 64 with h2 | h2
        · have e3 : i = 63 := by omega
          subst e3
          simp
        · have e4 : id.bits.testBit i = false := testBit_eq_false_of_ge_64 _ i hid h2
          have e5 : ¬ i < 62 := by omega
          have e6 : i ≠ 63 := by omega
          have e7 : (62 : Nat) ≠ i := by omega
          simp [e4, e5, e6, e7]
    have e : id.deactivate.activate = ⟨id.deactivate.activate.bits⟩ := rfl
    rw [e, hb]
  · simp only [ActId.Identifier.is_active]
    have hc : id.deactivate.bits &&& ActId.FlagDeactivated = 2 ^ 62 := by
      show (id.bits ||| ActId.FlagDeactivated) &&& ActId.FlagDeactivated = 2 ^ 62
      rw [hD]
      exact or_two_pow_and_two_pow _ 62
    rw [hc]
    decide
  · have h1 : (ActId.Identifier.new l h k).is_active
        = decide ((ActId.Identifier.new l h k).bits / 2 ^ 62 % 2 = 0) :=
      act_is_active_eq _
    rw [h1, act_new_bits l h hl k]
    cases k
    · simp only [ActId.IdKind.code, decide_eq_true_eq]
      omega
    · have hc : ActId.IdKind.code ActId.IdKind.Pair = 2 ^ 63 := by
        norm_num [ActId.IdKind.code, Nat.shiftLeft_eq]
      rw [hc]
      simp only [decide_eq_true_eq]
      omega

/-- Witness for C5 (amended) at a concrete active identifier and the
constructor inputs `(12, 55, Entity)`. -/
theorem claim_activation_amended_witness :
    (ActId.Identifier.mk 0x1200000003).bits < 2 ^ 64 ∧
    (12 : Nat) < 2 ^ 32 ∧
    (ActId.Identifier.mk 0x1200000003).is_active = true ∧
    ((ActId.Identifier.mk 0x1200000003).deactivate.activate
        = ActId.Identifier.mk 0x1200000003 ∧
     (ActId.Identifier.mk 0x1200000003).deactivate.is_active = false ∧
     (ActId.Identifier.new 12 55 ActId.IdKind.Entity).is_active = true) :=
  ⟨by decide, by decide, by decide,
    (claim_activation_amended (ActId.Identifier.mk 0x1200000003) (by decide)
        12 55 (by decide) ActId.IdKind.Entity).1 (by decide),
    (claim_activation_amended (ActId.Identifier.mk 0x1200000003) (by decide)
        12 55 (by decide) ActId.IdKind.Entity).2.1,
    (claim_activation_amended (ActId.Identifier.mk 0x1200000003) (by decide)
        12 55 (by decide) ActId.IdKind.Entity).2.2⟩

/-- C6: packing two 32-bit halves into a `u64` and splitting it back are
mutual inverses, and `pack_into_u64 l h` equals `(h <<< 32) ||| l`, i.e.
`h * 2 ^ 32 + l`. -/
theorem claim_pack_unpack (l h : Nat) (hl : l < 2 ^ 32) (hh : h < 2 ^ 32) :
    Masks.get_low (Masks.pack_into_u64 l h) = l ∧
    Masks.get_high (Masks.pack_into_u64 l h) = h ∧
    Masks.pack_into_u64 l h = h * 2 ^ 32 + l := by
  have hp := pack_into_u64_eq l h hl
  refine ⟨?_, ?_, hp⟩
  · rw [get_low_eq, hp]
    omega
  · rw [get_high_eq, hp]
    omega

/-- Witness for C6 at `l = 0xCC`, `h = 0x7FFFFFFF`. -/
theorem claim_pack_unpack_witness :
    (0xCC : Nat) < 2 ^ 32 ∧ (0x7FFFFFFF : Nat) < 2 ^ 32 ∧
    (Masks.get_low (Masks.pack_into_u64 0xCC 0x7FFFFFFF) = 0xCC ∧
     Masks.get_high (Masks.pack_into_u64 0xCC 0x7FFFFFFF) = 0x7FFFFFFF ∧
     Masks.pack_into_u64 0xCC 0x7FFFFFFF = 0x7FFFFFFF * 2 ^ 32 + 0xCC) :=
  ⟨by decide, by decide, claim_pack_unpack 0xCC 0x7FFFFFFF (by decide) (by decide)⟩

/-- C7: both constructors are total functions over their whole input domain
(the embedding functions are total by construction); they first clear the
reserved flag bits the caller may have set in `high` and then inject `kind`:
the kind extracted from the constructed identifier's high segment equals the
packed kind, and the flag-free value portion of its high segment equals
`high` with its variant's flag bits cleared (31 bits in the mod.rs variant,
30 bits in the identifier.rs variant).  Concretely `new 12 55 Entity` yields
`low = 12`, value-only high portion `55`, and kind `Entity` in both variants. -/
theorem claim_new_masks_then_packs (l h : Nat) (hl : l < 2 ^ 32) (hh : h < 2 ^ 32)
    (km : ModId.IdKind) (ka : ActId.IdKind) :
    Masks.extract_kind_from_high (ModId.Identifier.new l h km).high = km.toMaskKind ∧
    Masks.extract_value_from_high (ModId.Identifier.new l h km).high
      = Masks.extract_value_from_high h ∧
    (ActId.Identifier.new l h ka).kind = ka ∧
    (ActId.Identifier.new l h ka).high = h % 2 ^ 30 ∧
    ((ModId.Identifier.new 12 55 ModId.IdKind.Entity).low = 12 ∧
     Masks.extract_value_from_high (ModId.Identifier.new 12 55 ModId.IdKind.Entity).high = 55 ∧
     Masks.extract_kind_from_high (ModId.Identifier.new 12 55 ModId.IdKind.Entity).high
        = Masks.IdKind.Entity ∧
     (ActId.Identifier.new 12 55 ActId.IdKind.Entity).low = 12 ∧
     (ActId.Identifier.new 12 55 ActId.IdKind.Entity).high = 55 ∧
     (ActId.Identifier.new 12 55 ActId.IdKind.Entity).kind = ActId.IdKind.Entity) := by
  have hhi : (ModId.Identifier.new l h km).high = km.code + h % 2 ^ 31 := mod_new_hi l h km
  refine ⟨?_, ?_, ?_, ?_, by decide, by decide, by decide, by decide, by decide, by decide⟩
  · rw [hhi, extract_kind_from_high_eq]
    cases km
    · rw [if_neg (by simp only [ModId.IdKind.code]; omega)]
      rfl
    · have hc : ModId.IdKind.code ModId.IdKind.Pair = 2 ^ 31 := by
        norm_num [ModId.IdKind.code, Nat.shiftLeft_eq]
      rw [if_pos (by rw [hc]; omega)]
      rfl
  · rw [hhi, extract_value_from_high_eq, extract_value_from_high_eq]
    cases km
    · simp only [ModId.IdKind.code]
      omega
    · have hc : ModId.IdKind.code ModId.IdKind.Pair = 2 ^ 31 := by
        norm_num [ModId.IdKind.code, Nat.shiftLeft_eq]
      rw [hc]
      omega
  · have h1 : (ActId.Identifier.new l h ka).kind
        = if (ActId.Identifier.new l h ka).bits / 2 ^ 63 % 2 = 1
          then ActId.IdKind.Pair else ActId.IdKind.Entity := act_kind_eq _
    rw [h1, act_new_bits l h hl ka]
    cases ka
    · rw [if_neg (by simp only [ActId.IdKind.code]; omega)]
    · have hc : ActId.IdKind.code ActId.IdKind.Pair = 2 ^ 63 := by
        norm_num [ActId.IdKind.code, Nat.shiftLeft_eq]
      rw [if_pos (by rw [hc]; omega)]
  · have h1 : (ActId.Identifier.new l h ka).high
        = (ActId.Identifier.new l h ka).bits / 2 ^ 32 % 2 ^ 30 := act_high_eq _
    rw [h1, act_new_bits l h hl ka]
    cases ka
    · simp only [ActId.IdKind.code]
      omega
    · have hc : ActId.IdKind.code ActId.IdKind.Pair = 2 ^ 63 := by
        norm_num [ActId.IdKind.code, Nat.shiftLeft_eq]
      rw [hc]
      omega

/-- Witness for C7 at `l = 12`, `h = 0xFFFFFFFF`, kinds `Pair`. -/
theorem claim_new_masks_then_packs_witness :
    (12 : Nat) < 2 ^ 32 ∧ (0xFFFFFFFF : Nat) < 2 ^ 32 ∧
    (Masks.extract_kind_from_high (ModId.Identifier.new 12 0xFFFFFFFF ModId.IdKind.Pair).high
        = ModId.IdKind.Pair.toMaskKind ∧
     Masks.extract_value_from_high (ModId.Identifier.new 12 0xFFFFFFFF ModId.IdKind.Pair).high
        = Masks.extract_value_from_high 0xFFFFFFFF ∧
     (ActId.Identifier.new 12 0xFFFFFFFF ActId.IdKind.Pair).kind = ActId.IdKind.Pair ∧
     (ActId.Identifier.new 12 0xFFFFFFFF ActId.IdKind.Pair).high = 0xFFFFFFFF % 2 ^ 30 ∧
     ((ModId.Identifier.new 12 55 ModId.IdKind.Entity).low = 12 ∧
      Masks.extract_value_from_high (ModId.Identifier.new 12 55 ModId.IdKind.Entity).high = 55 ∧
      Masks.extract_kind_from_high (ModId.Identifier.new 12 55 ModId.IdKind.Entity).high
         = Masks.IdKind.Entity ∧
      (ActId.Identifier.new 12 55 ActId.IdKind.Entity).low = 12 ∧
      (ActId.Identifier.new 12 55 ActId.IdKind.Entity).high = 55 ∧
      (ActId.Identifier.new 12 55 ActId.IdKind.Entity).kind = ActId.IdKind.Entity)) :=
  ⟨by decide, by decide,
    claim_new_masks_then_packs 12 0xFFFFFFFF (by decide) (by decide)
      ModId.IdKind.Pair ActId.IdKind.Pair⟩

/-- C8: `low (new low high kind) = low` in both variants: the low accessor of
a constructed identifier returns exactly the supplied 32-bit low value,
untouched by the kind tag and by the masking of the high segment. -/
theorem claim_low_of_new (l h : Nat) (hl : l < 2 ^ 32) (hh : h < 2 ^ 32)
    (km : ModId.IdKind) (ka : ActId.IdKind) :
    (ModId.Identifier.new l h km).low = l ∧ (ActId.Identifier.new l h ka).low = l := by
  constructor
  · rfl
  · have h1 : (ActId.Identifier.new l h ka).low
        = (ActId.Identifier.new l h ka).bits % 2 ^ 32 := act_low_eq _
    rw [h1, act_new_bits l h hl ka]
    cases ka
    · simp only [ActId.IdKind.code]
      omega
    · have hc : ActId.IdKind.code ActId.IdKind.Pair = 2 ^ 63 := by
        norm_num [ActId.IdKind.code, Nat.shiftLeft_eq]
      rw [hc]
      omega

/-- Witness for C8 at `l = 0xFFFFFFFF`, `h = 0xFFFFFFFF`, kinds `Pair`. -/
theorem claim_low_of_new_witness :
    (0xFFFFFFFF : Nat) < 2 ^ 32 ∧ (0xFFFFFFFF : Nat) < 2 ^ 32 ∧
    ((ModId.Identifier.new 0xFFFFFFFF 0xFFFFFFFF ModId.IdKind.Pair).low = 0xFFFFFFFF ∧
     (ActId.Identifier.new 0xFFFFFFFF 0xFFFFFFFF ActId.IdKind.Pair).low = 0xFFFFFFFF) :=
  ⟨by decide, by decide,
    claim_low_of_new 0xFFFFFFFF 0xFFFFFFFF (by decide) (by decide)
      ModId.IdKind.Pair ActId.IdKind.Pair⟩

/-- C9: `activate` and `deactivate` change at most the single activation bit
(bit 62) of the 64-bit representation — the low 62 bits (`% 2 ^ 62`) and the
bits above the activation bit (`/ 2 ^ 63`) of the packed word are preserved —
and `kind`, `low` and `high` are all unchanged by both operations. -/
theorem claim_activation_frame (id : ActId.Identifier) (hid : id.bits < 2 ^ 64) :
    (id.activate.to_bits % 2 ^ 62 = id.to_bits % 2 ^ 62 ∧
     id.activate.to_bits / 2 ^ 63 = id.to_bits / 2 ^ 63 ∧
     id.deactivate.to_bits % 2 ^ 62 = id.to_bits % 2 ^ 62 ∧
     id.deactivate.to_bits / 2 ^ 63 = id.to_bits / 2 ^ 63) ∧
    (id.activate.kind = id.kind ∧ id.deactivate.kind = id.kind) ∧
    (id.activate.low = id.low ∧ id.deactivate.low = id.low) ∧
    (id.activate.high = id.high ∧ id.deactivate.high = id.high) := by
  have hNEG1 : ActId.NEGATE_DEACTIVATE_MASK &&& (2 ^ 62 - 1) = 2 ^ 62 - 1 := by decide
  have hNEG2 : ActId.NEGATE_DEACTIVATE_MASK &&& ActId.LOW_MASK = ActId.LOW_MASK := by decide
  have hNEG3 : ActId.NEGATE_DEACTIVATE_MASK &&& ActId.HIGH_MASK = ActId.HIGH_MASK := by decide
  have hNEG4 : ActId.NEGATE_DEACTIVATE_MASK &&& ActId.FlagEntityPair
      = ActId.FlagEntityPair := by decide
  have hD1 : ActId.FlagDeactivated &&& (2 ^ 62 - 1) = 0 := by decide
  have hD2 : ActId.FlagDeactivated &&& ActId.LOW_MASK = 0 := by decide
  have hD3 : ActId.FlagDeactivated &&& ActId.HIGH_MASK = 0 := by decide
  have hD4 : ActId.FlagDeactivated &&& ActId.FlagEntityPair = 0 := by decide
  have hdeA : ∀ m : Nat, ActId.FlagDeactivated &&& m = 0 →
      id.deactivate.bits &&& m = id.bits &&& m := by
    intro m hm
    show (id.bits ||| ActId.FlagDeactivated) &&& m = id.bits &&& m
    rw [Nat.and_distrib_right, hm, Nat.or_zero]
  have e1 : id.activate.to_bits % 2 ^ 62 = id.to_bits % 2 ^ 62 := by
    show (id.bits &&& ActId.NEGATE_DEACTIVATE_MASK) % 2 ^ 62 = id.bits % 2 ^ 62
    rw [← Nat.and_pow_two_sub_one_eq_mod, ← Nat.and_pow_two_sub_one_eq_mod,
      Nat.and_assoc, hNEG1]
  have e2 : id.activate.to_bits / 2 ^ 63 = id.to_bits / 2 ^ 63 := by
    show (id.bits &&& ActId.NEGATE_DEACTIVATE_MASK) / 2 ^ 63 = id.bits / 2 ^ 63
    apply Nat.eq_of_testBit_eq
    intro i
    rw [testBit_div_pow, testBit_div_pow, Nat.testBit_and]
    simp only [ActId.NEGATE_DEACTIVATE_MASK, testBit_neg_deactivate_mask]
    rcases eq_or_ne i 0 with h0 | h0
    · subst h0
      simp
    · have hge : 64 ≤ 63 + i := by omega
      rw [testBit_eq_false_of_ge_64 _ _ hid hge]
      simp
  have e3 : id.deactivate.to_bits % 2 ^ 62 = id.to_bits % 2 ^ 62 := by
    show (id.bits ||| ActId.FlagDeactivated) % 2 ^ 62 = id.bits % 2 ^ 62
    rw [← Nat.and_pow_two_sub_one_eq_mod, ← Nat.and_pow_two_sub_one_eq_mod,
      Nat.and_distrib_right, hD1, Nat.or_zero]
  have e4 : id.deactivate.to_bits / 2 ^ 63 = id.to_bits / 2 ^ 63 := by
    show (id.bits ||| ActId.FlagDeactivated) / 2 ^ 63 = id.bits / 2 ^ 63
    apply Nat.eq_of_testBit_eq
    intro i
    rw [testBit_div_pow, testBit_div_pow, Nat.testBit_or]
    have hF : ActId.FlagDeactivated = 2 ^ 62 := by
      norm_num [ActId.FlagDeactivated, Nat.shiftLeft_eq]
    rw [hF, Nat.testBit_two_pow]
    have hne : (62 : Nat) ≠ 63 + i := by omega
    simp [hne]
  have e5 : id.activate.kind = id.kind := by
    have hc : id.activate.bits &&& ActId.FlagEntityPair
        = id.bits &&& ActId.FlagEntityPair := by
      show (id.bits &&& ActId.NEGATE_DEACTIVATE_MASK) &&& ActId.FlagEntityPair = _
      rw [Nat.and_assoc, hNEG4]
    simp only [ActId.Identifier.kind]
    rw [hc]
  have e6 : id.deactivate.kind = id.kind := by
    have hc := hdeA ActId.FlagEntityPair hD4
    simp only [ActId.Identifier.kind]
    rw [hc]
  have e7 : id.activate.low = id.low := by
    simp only [ActId.Identifier.low]
    show (id.bits &&& ActId.NEGATE_DEACTIVATE_MASK) &&& ActId.LOW_MASK = _
    rw [Nat.and_assoc, hNEG2]
  have e8 : id.deactivate.low = id.low := by
    simp only [ActId.Identifier.low]
    exact hdeA ActId.LOW_MASK hD2
  have e9 : id.activate.high = id.high := by
    simp only [ActId.Identifier.high]
    congr 1
    show (id.bits &&& ActId.NEGATE_DEACTIVATE_MASK) &&& ActId.HIGH_MASK = _
    rw [Nat.and_assoc, hNEG3]
  have e10 : id.deactivate.high = id.high := by
    simp only [ActId.Identifier.high]
    congr 1
    exact hdeA ActId.HIGH_MASK hD3
  exact ⟨⟨e1, e2, e3, e4⟩, ⟨e5, e6⟩, ⟨e7, e8⟩, ⟨e9, e10⟩⟩

/-- Witness for C9 at the concrete identifier with bits `0xC1234567890ABCDE`. -/
theorem claim_activation_frame_witness :
    (ActId.Identifier.mk 0xC1234567890ABCDE).bits < 2 ^ 64 ∧
    ((((ActId.Identifier.mk 0xC1234567890ABCDE).activate.to_bits % 2 ^ 62
        = (ActId.Identifier.mk 0xC1234567890ABCDE).to_bits % 2 ^ 62 ∧
       (ActId.Identifier.mk 0xC1234567890ABCDE).activate.to_bits / 2 ^ 63
        = (ActId.Identifier.mk 0xC1234567890ABCDE).to_bits / 2 ^ 63 ∧
       (ActId.Identifier.mk 0xC1234567890ABCDE).deactivate.to_bits % 2 ^ 62
        = (ActId.Identifier.mk 0xC1234567890ABCDE).to_bits % 2 ^ 62 ∧
       (ActId.Identifier.mk 0xC1234567890ABCDE).deactivate.to_bits / 2 ^ 63
        = (ActId.Identifier.mk 0xC1234567890ABCDE).to_bits / 2 ^ 63) ∧
      ((ActId.Identifier.mk 0xC1234567890ABCDE).activate.kind
        = (ActId.Identifier.mk 0xC1234567890ABCDE).kind ∧
       (ActId.Identifier.mk 0xC1234567890ABCDE).deactivate.kind
        = (ActId.Identifier.mk 0xC1234567890ABCDE).kind) ∧
      ((ActId.Identifier.mk 0xC1234567890ABCDE).activate.low
        = (ActId.Identifier.mk 0xC1234567890ABCDE).low ∧
       (ActId.Identifier.mk 0xC1234567890ABCDE).deactivate.low
        = (ActId.Identifier.mk 0xC1234567890ABCDE).low) ∧
      ((ActId.Identifier.mk 0xC1234567890ABCDE).activate.high
        = (ActId.Identifier.mk 0xC1234567890ABCDE).high ∧
       (ActId.Identifier.mk 0xC1234567890ABCDE).deactivate.high
        = (ActId.Identifier.mk 0xC1234567890ABCDE).high))) :=
  ⟨by decide, claim_activation_frame (ActId.Identifier.mk 0xC1234567890ABCDE) (by decide)⟩

/-- C10: `activate` and `deactivate` are idempotent, and they fully determine
the activation flag from any starting state: `is_active` is `true` after
`activate` and `false` after `deactivate`, for every identifier, not only
freshly constructed ones. -/
theorem claim_activation_idempotent (id : ActId.Identifier) :
    id.activate.activate = id.activate ∧
    id.deactivate.deactivate = id.deactivate ∧
    id.activate.is_active = true ∧
    id.deactivate.is_active = false := by
  have hD : ActId.FlagDeactivated = 2 ^ 62 := by
    norm_num [ActId.FlagDeactivated, Nat.shiftLeft_eq]
  refine ⟨?_, ?_, ?_, ?_⟩
  · have hb : id.activate.activate.bits = id.activate.bits := by
      show (id.bits &&& ActId.NEGATE_DEACTIVATE_MASK) &&& ActId.NEGATE_DEACTIVATE_MASK
          = id.bits &&& ActId.NEGATE_DEACTIVATE_MASK
      rw [Nat.and_assoc, Nat.and_self]
    have e : id.activate.activate = ⟨id.activate.activate.bits⟩ := rfl
    rw [e, hb]
  · have hb : id.deactivate.deactivate.bits = id.deactivate.bits := by
      show (id.bits ||| ActId.FlagDeactivated) ||| ActId.FlagDeactivated
          = id.bits ||| ActId.FlagDeactivated
      rw [Nat.or_assoc, Nat.or_self]
    have e : id.deactivate.deactivate = ⟨id.deactivate.deactivate.bits⟩ := rfl
    rw [e, hb]
  · simp only [ActId.Identifier.is_active]
    have hc : id.activate.bits &&& ActId.FlagDeactivated = 0 := by
      show (id.bits &&& ActId.NEGATE_DEACTIVATE_MASK) &&& ActId.FlagDeactivated = 0
      rw [Nat.and_assoc]
      have hn : ActId.NEGATE_DEACTIVATE_MASK &&& ActId.FlagDeactivated = 0 := by decide
      rw [hn, Nat.and_zero]
    simp [hc]
  · simp only [ActId.Identifier.is_active]
    have hc : id.deactivate.bits &&& ActId.FlagDeactivated = 2 ^ 62 := by
      show (id.bits ||| ActId.FlagDeactivated) &&& ActId.FlagDeactivated = 2 ^ 62
      rw [hD]
      exact or_two_pow_and_two_pow _ 62
    rw [hc]
    decide
